import Mathlib

/-!
Verification of the dropboxsign-client repository (Rust) against its
natural-language specification.

The development shallowly embeds the response-handling and serialization
logic of the crate:

* `Json` models `serde_json::Value` as produced by a successful
  `serde_json::from_str` (object keys unique, in document order).
* Deserializers (`deStr`, `deBool`, ...) model `serde_json::from_value`
  for each Rust type that derives `Deserialize`.
* Serializers (`serSendSignatureRequest`, ...) model `serde_json::to_value`
  for types deriving `Serialize`, honouring
  `#[serde(skip_serializing_if = "Option::is_none")]`.
* `parse_response` models `client::parse_response` (src/client.rs:39-61).
* `get_signature_request` / `send_with_template` model the
  response-handling portion of the two client operations
  (src/client.rs:219-231 and 301-312): the transport is abstracted to the
  received HTTP status code and the received (valid-JSON) body.
-/

namespace DropboxSign

/-- JSON values as held by `serde_json::Value` after parsing; an object's
field list has pairwise distinct keys, in document order. Integral numbers
only (no field of the modelled records is a float). -/
inductive Json where
  | null : Json
  | bool (b : Bool) : Json
  | num (n : Int) : Json
  | str (s : String) : Json
  | arr (elems : List Json) : Json
  | obj (fields : List (String × Json)) : Json

/-- First-match key lookup in an object's field list (models
`serde_json::Map::get`; keys are unique so first match is the match). -/
def lookupField : List (String × Json) → String → Option Json
  | [], _ => none
  | (k, v) :: rest, key => if key = k then some v else lookupField rest key

/-- Models `serde_json::Value::get(key)`: field lookup on objects, `None`
on every other value. -/
def Json.get : Json → String → Option Json
  | .obj fields, key => lookupField fields key
  | _, _ => none

/-! ### Deserialization primitives (model of `serde_json::from_value`) -/

/-- Deserialize a JSON string (serde for `String`). -/
def deStr : Json → Except String String
  | .str s => .ok s
  | _ => .error "expected string"

/-- Deserialize a JSON boolean (serde for `bool`). -/
def deBool : Json → Except String Bool
  | .bool b => .ok b
  | _ => .error "expected boolean"

/-- Deserialize a `u64` (serde rejects negatives and values past the width). -/
def deU64 : Json → Except String Nat
  | .num n => if 0 ≤ n ∧ n < 2 ^ 64 then .ok n.toNat else .error "expected u64"
  | _ => .error "expected u64"

/-- Deserialize an `i64`. -/
def deI64 : Json → Except String Int
  | .num n => if -(2 ^ 63) ≤ n ∧ n < 2 ^ 63 then .ok n else .error "expected i64"
  | _ => .error "expected i64"

/-- Deserialize an `i32`. -/
def deI32 : Json → Except String Int
  | .num n => if -(2 ^ 31) ≤ n ∧ n < 2 ^ 31 then .ok n else .error "expected i32"
  | _ => .error "expected i32"

/-- Deserialize a `u8` (element type of the `files` byte arrays). -/
def deU8 : Json → Except String (Fin 256)
  | .num n => if h : 0 ≤ n ∧ n < 256 then
      .ok ⟨n.toNat, by omega⟩
    else .error "expected u8"
  | _ => .error "expected u8"

/-- Elementwise deserialization of a list, in order, failing on the first
bad element (serde's behaviour for `Vec<T>` once the value is an array). -/
def deElems (de : Json → Except String α) : List Json → Except String (List α)
  | [] => .ok []
  | x :: xs =>
    match de x with
    | .error e => .error e
    | .ok a =>
      match deElems de xs with
      | .error e => .error e
      | .ok as => .ok (a :: as)

/-- Deserialize a JSON array into a `Vec<T>`. -/
def deList (de : Json → Except String α) : Json → Except String (List α)
  | .arr xs => deElems de xs
  | _ => .error "expected array"

/-- Serde's treatment of an `Option<T>` value: `null` becomes `None`,
anything else deserializes as `T`. -/
def deOpt (de : Json → Except String α) : Json → Except String (Option α)
  | .null => .ok none
  | v => (de v).map some

/-- Read a required field (serde errors when the key is absent). -/
def getReq (j : Json) (key : String) (de : Json → Except String α) :
    Except String α :=
  match j.get key with
  | none => .error ("missing field " ++ key)
  | some v => de v

/-- Read an `Option<T>` field: absent key (or `null`) is `None`. -/
def getOpt (j : Json) (key : String) (de : Json → Except String α) :
    Except String (Option α) :=
  match j.get key with
  | none => .ok none
  | some v => deOpt de v

/-- Deserialize a `HashMap<String, String>`, modelled as the association
list read off the JSON object in document order. -/
def deStrMap : Json → Except String (List (String × String))
  | .obj fields => deStrMapElems fields
  | _ => .error "expected object"
where
  deStrMapElems : List (String × Json) → Except String (List (String × String))
    | [] => .ok []
    | (k, v) :: rest => do
      let s ← deStr v
      let tl ← deStrMapElems rest
      .ok ((k, s) :: tl)

/-! ### Warning and error envelope records (src/lib.rs) -/

/-- `WarningResponse` (src/lib.rs:80-86). -/
structure WarningResponse where
  warning_msg : String
  warning_name : String
deriving DecidableEq, Repr

/-- Deserializer derived for `WarningResponse`. -/
def deWarning (j : Json) : Except String WarningResponse := do
  let msg ← getReq j "warning_msg" deStr
  let name ← getReq j "warning_name" deStr
  .ok { warning_msg := msg, warning_name := name }

/-- `ErrorResponseError` (src/lib.rs:100-110). The `status` field carries
the HTTP status code as a number; it is `#[serde(skip)]` in the source, so
deserialization fills it with `StatusCode::default()`, which is 200 OK. -/
structure ErrorResponseError where
  status : Nat
  error_msg : String
  error_path : Option String
  error_name : String
deriving DecidableEq, Repr

/-- `ErrorResponse` (src/lib.rs:89-93). -/
structure ErrorResponse where
  error : ErrorResponseError
deriving DecidableEq, Repr

/-- Deserializer derived for `ErrorResponseError`: `status` is skipped, so
it takes serde's default for the field, `StatusCode::OK` = 200. -/
def deErrorResponseError (j : Json) : Except String ErrorResponseError := do
  let msg ← getReq j "error_msg" deStr
  let path ← getOpt j "error_path" deStr
  let name ← getReq j "error_name" deStr
  .ok { status := 200, error_msg := msg, error_path := path, error_name := name }

/-- Deserializer derived for `ErrorResponse`. -/
def deErrorResponse (j : Json) : Except String ErrorResponse := do
  let e ← getReq j "error" deErrorResponseError
  .ok { error := e }

/-! ### Inbound response records (src/signature_request.rs:181-441) -/

/-- `SignatureRequestResponseDataType` (src/signature_request.rs:417-441),
with its serde renames. -/
inductive SignatureRequestResponseDataType where
  | Text | Checkbox | Dropdown | Radio | Signature
  | DateSigned | Initials | TextMerge | CheckboxMerge
deriving DecidableEq, Repr

/-- Deserializer for `SignatureRequestResponseDataType`
(`rename_all = "lowercase"` plus the three explicit renames). -/
def deDataType (j : Json) : Except String SignatureRequestResponseDataType :=
  match j with
  | .str "text" => .ok .Text
  | .str "checkbox" => .ok .Checkbox
  | .str "dropdown" => .ok .Dropdown
  | .str "radio" => .ok .Radio
  | .str "signature" => .ok .Signature
  | .str "date_signed" => .ok .DateSigned
  | .str "initials" => .ok .Initials
  | .str "text-merge" => .ok .TextMerge
  | .str "checkbox-merge" => .ok .CheckboxMerge
  | _ => .error "unknown variant of SignatureRequestResponseDataType"

/-- `SignatureRequestResponseData` (src/signature_request.rs:313-333).
The `o_type` field carries no serde rename in the source, so its JSON key
is literally `o_type`. -/
structure SignatureRequestResponseData where
  api_id : Option String
  signature_id : Option String
  name : Option String
  required : Option Bool
  o_type : Option SignatureRequestResponseDataType
  value : Option String
deriving DecidableEq, Repr

/-- Deserializer derived for `SignatureRequestResponseData`. -/
def deResponseData (j : Json) : Except String SignatureRequestResponseData := do
  let api_id ← getOpt j "api_id" deStr
  let signature_id ← getOpt j "signature_id" deStr
  let name ← getOpt j "name" deStr
  let required ← getOpt j "required" deBool
  let o_type ← getOpt j "o_type" deDataType
  let value ← getOpt j "value" deStr
  .ok { api_id, signature_id, name, required, o_type, value }

/-- `SignatureRequestResponseAttachment` (src/signature_request.rs:291-307). -/
structure SignatureRequestResponseAttachment where
  id : String
  signer : String
  name : String
  required : Bool
  instructions : Option String
  uploaded_at : Option Nat
deriving DecidableEq, Repr

/-- Deserializer derived for `SignatureRequestResponseAttachment`. -/
def deAttachment (j : Json) : Except String SignatureRequestResponseAttachment := do
  let id ← getReq j "id" deStr
  let signer ← getReq j "signer" deStr
  let name ← getReq j "name" deStr
  let required ← getReq j "required" deBool
  let instructions ← getOpt j "instructions" deStr
  let uploaded_at ← getOpt j "uploaded_at" deU64
  .ok { id, signer, name, required, instructions, uploaded_at }

/-- `SignatureRequestResponseSignatures` (src/signature_request.rs:339-412). -/
structure SignatureRequestResponseSignatures where
  signature_id : String
  signer_group_guid : Option String
  signer_email_address : String
  signer_name : Option String
  signer_role : Option String
  order : Option Int
  status_code : String
  decline_reason : Option String
  signed_at : Option Int
  last_viewed_at : Option Int
  last_reminded_at : Option Int
  has_pin : Bool
  has_sms_auth : Option Bool
  has_sms_delivery : Option Bool
  sms_phone_number : Option String
  reassigned_by : Option String
  reassignment_reason : Option String
  reassigned_from : Option String
  error : Option String
deriving DecidableEq, Repr

/-- Deserializer derived for `SignatureRequestResponseSignatures`. -/
def deSignatures (j : Json) : Except String SignatureRequestResponseSignatures := do
  let signature_id ← getReq j "signature_id" deStr
  let signer_group_guid ← getOpt j "signer_group_guid" deStr
  let signer_email_address ← getReq j "signer_email_address" deStr
  let signer_name ← getOpt j "signer_name" deStr
  let signer_role ← getOpt j "signer_role" deStr
  let order ← getOpt j "order" deI32
  let status_code ← getReq j "status_code" deStr
  let decline_reason ← getOpt j "decline_reason" deStr
  let signed_at ← getOpt j "signed_at" deI64
  let last_viewed_at ← getOpt j "last_viewed_at" deI64
  let last_reminded_at ← getOpt j "last_reminded_at" deI64
  let has_pin ← getReq j "has_pin" deBool
  let has_sms_auth ← getOpt j "has_sms_auth" deBool
  let has_sms_delivery ← getOpt j "has_sms_delivery" deBool
  let sms_phone_number ← getOpt j "sms_phone_number" deStr
  let reassigned_by ← getOpt j "reassigned_by" deStr
  let reassignment_reason ← getOpt j "reassignment_reason" deStr
  let reassigned_from ← getOpt j "reassigned_from" deStr
  let error ← getOpt j "error" deStr
  .ok { signature_id, signer_group_guid, signer_email_address, signer_name,
        signer_role, order, status_code, decline_reason, signed_at,
        last_viewed_at, last_reminded_at, has_pin, has_sms_auth,
        has_sms_delivery, sms_phone_number, reassigned_by,
        reassignment_reason, reassigned_from, error }

/-- `SignatureRequestResponse` (src/signature_request.rs:185-250).
`metadata` (a `HashMap<String, String>`) is modelled as an association
list; `attachments` is `Option` of a single attachment record, exactly as
in the source. -/
structure SignatureRequestResponse where
  test_mode : Option Bool
  signature_request_id : String
  requester_email_address : Option String
  title : String
  original_title : String
  subject : Option String
  message : Option String
  metadata : List (String × String)
  created_at : Nat
  expires_at : Option Nat
  is_complete : Bool
  is_declined : Bool
  has_error : Bool
  files_url : String
  signing_url : Option String
  details_url : String
  cc_email_addresses : List String
  signing_redirect_url : Option String
  final_copy_uri : Option String
  template_ids : Option (List String)
  custom_ids : Option (List String)
  attachments : Option SignatureRequestResponseAttachment
  response_data : Option (List SignatureRequestResponseData)
  signatures : List SignatureRequestResponseSignatures
  bulk_send_job_id : Option String
deriving DecidableEq, Repr

/-- Deserializer derived for `SignatureRequestResponse`. -/
def deSignatureRequestResponse (j : Json) :
    Except String SignatureRequestResponse := do
  let test_mode ← getOpt j "test_mode" deBool
  let signature_request_id ← getReq j "signature_request_id" deStr
  let requester_email_address ← getOpt j "requester_email_address" deStr
  let title ← getReq j "title" deStr
  let original_title ← getReq j "original_title" deStr
  let subject ← getOpt j "subject" deStr
  let message ← getOpt j "message" deStr
  let metadata ← getReq j "metadata" deStrMap
  let created_at ← getReq j "created_at" deU64
  let expires_at ← getOpt j "expires_at" deU64
  let is_complete ← getReq j "is_complete" deBool
  let is_declined ← getReq j "is_declined" deBool
  let has_error ← getReq j "has_error" deBool
  let files_url ← getReq j "files_url" deStr
  let signing_url ← getOpt j "signing_url" deStr
  let details_url ← getReq j "details_url" deStr
  let cc_email_addresses ← getReq j "cc_email_addresses" (deList deStr)
  let signing_redirect_url ← getOpt j "signing_redirect_url" deStr
  let final_copy_uri ← getOpt j "final_copy_uri" deStr
  let template_ids ← getOpt j "template_ids" (deList deStr)
  let custom_ids ← getOpt j "custom_ids" (deList deStr)
  let attachments ← getOpt j "attachments" deAttachment
  let response_data ← getOpt j "response_data" (deList deResponseData)
  let signatures ← getReq j "signatures" (deList deSignatures)
  let bulk_send_job_id ← getOpt j "bulk_send_job_id" deStr
  .ok { test_mode, signature_request_id, requester_email_address, title,
        original_title, subject, message, metadata, created_at, expires_at,
        is_complete, is_declined, has_error, files_url, signing_url,
        details_url, cc_email_addresses, signing_redirect_url,
        final_copy_uri, template_ids, custom_ids, attachments,
        response_data, signatures, bulk_send_job_id }

/-! ### Envelope parsing (src/client.rs:39-61) and the two operations -/

/-- The distinct failure points of `parse_response`: the string error built
for a missing payload key, the `serde_json` failure deserializing the
payload, and the `serde_json` failure deserializing the warnings. -/
inductive ParseError where
  | missingKey (key : String) : ParseError
  | payloadError (msg : String) : ParseError
  | warningsError (msg : String) : ParseError
deriving DecidableEq, Repr

/-- Deserialize the top-level `warnings` value as `Vec<WarningResponse>`. -/
def deWarnings (j : Json) : Except String (List WarningResponse) :=
  deList deWarning j

/-- `parse_response` (src/client.rs:39-61), parameterized over the payload
deserializer exactly as the source is generic over `T: DeserializeOwned`.
The body is taken after `serde_json::from_str` succeeded (all claims about
this function concern valid-JSON bodies): look the payload key up at the
top level, failing with the distinct "missing key" error when absent;
deserialize the payload; then, when a top-level `warnings` value is
present, deserialize it as a warning list (`.map(...).transpose()?`). -/
def parse_response (de : Json → Except String α) (json : Json) (key : String) :
    Except ParseError (α × Option (List WarningResponse)) := do
  let payload ← match json.get key with
    | none => Except.error (ParseError.missingKey key)
    | some p => Except.ok p
  let inner ← match de payload with
    | .ok v => Except.ok v
    | .error e => Except.error (ParseError.payloadError e)
  let warnings ← match json.get "warnings" with
    | none => Except.ok none
    | some w =>
      match deWarnings w with
      | .ok ws => Except.ok (some ws)
      | .error e => Except.error (ParseError.warningsError e)
  .ok (inner, warnings)

/-- `DropboxSignClientError` (src/client.rs:94-110). `Reqwest` (transport
failure) is out of the model's reach; `Serde` is a `serde_json` failure on
the error-envelope path; `ResponseError` is the typed provider error;
`Other` wraps the boxed errors coming out of `parse_response`. The unused
first variant of the source enum is also carried. -/
inductive DropboxSignClientError where
  | DropboxSignClient (a b : String) : DropboxSignClientError
  | Reqwest (msg : String) : DropboxSignClientError
  | Serde (msg : String) : DropboxSignClientError
  | ResponseError (e : ErrorResponseError) : DropboxSignClientError
  | Other (e : ParseError) : DropboxSignClientError
deriving DecidableEq, Repr

/-- Outcome of one operation once a response has arrived. -/
abbrev ClientResult :=
  Except DropboxSignClientError
    (SignatureRequestResponse × Option (List WarningResponse))

/-- Response handling of `get_signature_request` (src/client.rs:219-231):
on status 200 (`StatusCode::OK`) run `parse_response` with payload key
`"signature_request"`, mapping its failure into `Other`; on any other
status parse the body as the error envelope (`Serde` failure if that does
not deserialize) and fail with `ResponseError` carrying `parsed.error`. -/
def get_signature_request (status : Nat) (body : Json) : ClientResult :=
  if status = 200 then
    match parse_response deSignatureRequestResponse body "signature_request" with
    | .ok (sig_req, warnings) => .ok (sig_req, warnings)
    | .error e => .error (.Other e)
  else
    match deErrorResponse body with
    | .ok parsed => .error (.ResponseError parsed.error)
    | .error e => .error (.Serde e)

/-- Response handling of `send_with_template` (src/client.rs:301-312):
identical branching to `get_signature_request` (the source duplicates the
logic; the extra `println!` on the success path has no bearing on the
returned value). -/
def send_with_template (status : Nat) (body : Json) : ClientResult :=
  if status = 200 then
    match parse_response deSignatureRequestResponse body "signature_request" with
    | .ok (sig_req, warnings) => .ok (sig_req, warnings)
    | .error e => .error (.Other e)
  else
    match deErrorResponse body with
    | .ok parsed => .error (.ResponseError parsed.error)
    | .error e => .error (.Serde e)

/-- A result lies on the success path (envelope parsing was attempted)
when it is `Ok` or an `Other`-wrapped `parse_response` failure. -/
def tookSuccessPath : ClientResult → Bool
  | .ok _ => true
  | .error (.Other _) => true
  | _ => false

/-- A result lies on the error path (error-envelope parsing was attempted)
when it is a typed provider error or a `Serde` failure of that parsing. -/
def tookErrorPath : ClientResult → Bool
  | .error (.ResponseError _) => true
  | .error (.Serde _) => true
  | _ => false

/-- `Except` success test (used to state success/failure classification). -/
def exceptIsOk : Except ε α → Bool
  | .ok _ => true
  | .error _ => false

/-! ### Outbound request records (src/signature_request.rs:33-179) -/

/-- `SMSPhoneNumberType` (src/signature_request.rs:104-111). -/
inductive SMSPhoneNumberType where
  | Authentication | Delivery
deriving DecidableEq, Repr

/-- `SubSignatureRequestTemplateSigner` (src/signature_request.rs:84-101). -/
structure SubSignatureRequestTemplateSigner where
  role : String
  name : String
  email_address : String
  pin : Option String
  sms_phone_number : Option String
  sms_phone_number_type : Option SMSPhoneNumberType
deriving DecidableEq, Repr

/-- `SubCC` (src/signature_request.rs:117-123); both fields required. -/
structure SubCC where
  role : String
  email : String
deriving DecidableEq, Repr

/-- `SubCustomField` (src/signature_request.rs:129-142). -/
structure SubCustomField where
  name : String
  editor : Option String
  required : Option Bool
  value : Option String
deriving DecidableEq, Repr

/-- `SubSigningOptionsDefaultType` (src/signature_request.rs:168-179). -/
inductive SubSigningOptionsDefaultType where
  | Draw | Phone | Type | Upload
deriving DecidableEq, Repr

/-- `SubSigningOptions` (src/signature_request.rs:148-165); the `o_type`
field is serialized under the JSON key `type`. -/
structure SubSigningOptions where
  default_type : SubSigningOptionsDefaultType
  draw : Option Bool
  phone : Option Bool
  o_type : Option Bool
  upload : Option Bool
deriving DecidableEq, Repr

/-- `SendSignatureRequest` (src/signature_request.rs:33-78). Bytes of the
`files` payload are `u8`, modelled as `Fin 256`; `metadata` is a
`HashMap<String, String>` modelled as an association list. -/
structure SendSignatureRequest where
  signers : List SubSignatureRequestTemplateSigner
  template_ids : List String
  allow_decline : Option Bool
  ccs : Option (List SubCC)
  client_id : Option String
  custom_fields : Option (List SubCustomField)
  files : Option (List (List (Fin 256)))
  file_urls : Option (List String)
  is_eid : Option Bool
  message : Option String
  metadata : Option (List (String × String))
  signing_options : Option SubSigningOptions
  signing_redirect_url : Option String
  test_mode : Option Bool
  title : Option String
deriving DecidableEq, Repr

/-! #### Builder constructors and setters
(src/signature_request.rs:443-616). Each Rust setter shares its field's
name; Lean reserves those names for the projections, so the embeddings are
prefixed with `set_`. -/

/-- `SendSignatureRequest::new` (src/signature_request.rs:467-485). -/
def SendSignatureRequest.new (signers : List SubSignatureRequestTemplateSigner)
    (template_ids : List String) : SendSignatureRequest where
  signers := signers
  template_ids := template_ids
  allow_decline := none
  ccs := none
  client_id := none
  custom_fields := none
  files := none
  file_urls := none
  is_eid := none
  message := none
  metadata := none
  signing_options := none
  signing_redirect_url := none
  test_mode := none
  title := none

/-- Setter `allow_decline` (src/signature_request.rs:492-495). -/
def SendSignatureRequest.set_allow_decline (r : SendSignatureRequest)
    (allow_decline : Bool) : SendSignatureRequest :=
  { r with allow_decline := some allow_decline }

/-- Setter `ccs` (src/signature_request.rs:502-505). -/
def SendSignatureRequest.set_ccs (r : SendSignatureRequest)
    (ccs : List SubCC) : SendSignatureRequest :=
  { r with ccs := some ccs }

/-- Setter `client_id` (src/signature_request.rs:512-515). -/
def SendSignatureRequest.set_client_id (r : SendSignatureRequest)
    (client_id : String) : SendSignatureRequest :=
  { r with client_id := some client_id }

/-- Setter `custom_fields` (src/signature_request.rs:522-525). -/
def SendSignatureRequest.set_custom_fields (r : SendSignatureRequest)
    (custom_fields : List SubCustomField) : SendSignatureRequest :=
  { r with custom_fields := some custom_fields }

/-- Setter `files` (src/signature_request.rs:532-535). -/
def SendSignatureRequest.set_files (r : SendSignatureRequest)
    (files : List (List (Fin 256))) : SendSignatureRequest :=
  { r with files := some files }

/-- Setter `file_urls` (src/signature_request.rs:542-545). -/
def SendSignatureRequest.set_file_urls (r : SendSignatureRequest)
    (file_urls : List String) : SendSignatureRequest :=
  { r with file_urls := some file_urls }

/-- Setter `is_eid` (src/signature_request.rs:552-555). -/
def SendSignatureRequest.set_is_eid (r : SendSignatureRequest)
    (is_eid : Bool) : SendSignatureRequest :=
  { r with is_eid := some is_eid }

/-- Setter `message` (src/signature_request.rs:562-565). -/
def SendSignatureRequest.set_message (r : SendSignatureRequest)
    (message : String) : SendSignatureRequest :=
  { r with message := some message }

/-- Setter `metadata` (src/signature_request.rs:572-575). -/
def SendSignatureRequest.set_metadata (r : SendSignatureRequest)
    (m : List (String × String)) : SendSignatureRequest :=
  { r with metadata := some m }

/-- Setter `signing_options` (src/signature_request.rs:582-585). -/
def SendSignatureRequest.set_signing_options (r : SendSignatureRequest)
    (signing_options : SubSigningOptions) : SendSignatureRequest :=
  { r with signing_options := some signing_options }

/-- Setter `signing_redirect_url` (src/signature_request.rs:592-595). -/
def SendSignatureRequest.set_signing_redirect_url (r : SendSignatureRequest)
    (signing_redirect_url : String) : SendSignatureRequest :=
  { r with signing_redirect_url := some signing_redirect_url }

/-- Setter `test_mode` (src/signature_request.rs:602-605). -/
def SendSignatureRequest.set_test_mode (r : SendSignatureRequest)
    (test_mode : Bool) : SendSignatureRequest :=
  { r with test_mode := some test_mode }

/-- Setter `title` (src/signature_request.rs:612-615). -/
def SendSignatureRequest.set_title (r : SendSignatureRequest)
    (title : String) : SendSignatureRequest :=
  { r with title := some title }

/-! #### Serialization (model of the derived `Serialize` instances, with
`#[serde(skip_serializing_if = "Option::is_none")]` on every optional
field: an unset field contributes no key at all). -/

/-- Emit an optional field: nothing when unset, one key otherwise. -/
def addOpt (k : String) (v : Option Json) (rest : List (String × Json)) :
    List (String × Json) :=
  match v with
  | none => rest
  | some j => (k, j) :: rest

/-- Serializer for `SMSPhoneNumberType` (`rename_all = "lowercase"`). -/
def serSMSType : SMSPhoneNumberType → Json
  | .Authentication => .str "authentication"
  | .Delivery => .str "delivery"

/-- Serializer for `SubSignatureRequestTemplateSigner`. -/
def serSigner (s : SubSignatureRequestTemplateSigner) : Json :=
  .obj (("role", .str s.role) :: ("name", .str s.name) ::
    ("email_address", .str s.email_address) ::
    addOpt "pin" (s.pin.map .str)
      (addOpt "sms_phone_number" (s.sms_phone_number.map .str)
        (addOpt "sms_phone_number_type" (s.sms_phone_number_type.map serSMSType)
          [])))

/-- Serializer for `SubCC`. -/
def serCC (c : SubCC) : Json :=
  .obj [("role", .str c.role), ("email", .str c.email)]

/-- Serializer for `SubCustomField`. -/
def serCustomField (c : SubCustomField) : Json :=
  .obj (("name", .str c.name) ::
    addOpt "editor" (c.editor.map .str)
      (addOpt "required" (c.required.map .bool)
        (addOpt "value" (c.value.map .str) [])))

/-- Serializer for `SubSigningOptionsDefaultType` (lowercase). -/
def serDefaultType : SubSigningOptionsDefaultType → Json
  | .Draw => .str "draw"
  | .Phone => .str "phone"
  | .Type => .str "type"
  | .Upload => .str "upload"

/-- Serializer for `SubSigningOptions`; `o_type` goes out under `type`. -/
def serSigningOptions (o : SubSigningOptions) : Json :=
  .obj (("default_type", serDefaultType o.default_type) ::
    addOpt "draw" (o.draw.map .bool)
      (addOpt "phone" (o.phone.map .bool)
        (addOpt "type" (o.o_type.map .bool)
          (addOpt "upload" (o.upload.map .bool) []))))

/-- Serializer for one `Vec<u8>` file. -/
def serBytes (b : List (Fin 256)) : Json :=
  .arr (b.map fun i => .num i.val)

/-- Serializer for `Vec<Vec<u8>>`. -/
def serFiles (fs : List (List (Fin 256))) : Json :=
  .arr (fs.map serBytes)

/-- Serializer for `Vec<String>`. -/
def serStrList (l : List String) : Json :=
  .arr (l.map .str)

/-- Serializer for `HashMap<String, String>` (association-list model). -/
def serStrMap (m : List (String × String)) : Json :=
  .obj (m.map fun p => (p.1, .str p.2))

/-- Serializer for `SendSignatureRequest`: the two required fields, then
the thirteen optional ones in declaration order, each omitted when unset. -/
def serSendSignatureRequest (r : SendSignatureRequest) : Json :=
  .obj (("signers", .arr (r.signers.map serSigner)) ::
    ("template_ids", serStrList r.template_ids) ::
    addOpt "allow_decline" (r.allow_decline.map .bool)
    (addOpt "ccs" (r.ccs.map fun l => .arr (l.map serCC))
    (addOpt "client_id" (r.client_id.map .str)
    (addOpt "custom_fields" (r.custom_fields.map fun l => .arr (l.map serCustomField))
    (addOpt "files" (r.files.map serFiles)
    (addOpt "file_urls" (r.file_urls.map serStrList)
    (addOpt "is_eid" (r.is_eid.map .bool)
    (addOpt "message" (r.message.map .str)
    (addOpt "metadata" (r.metadata.map serStrMap)
    (addOpt "signing_options" (r.signing_options.map serSigningOptions)
    (addOpt "signing_redirect_url" (r.signing_redirect_url.map .str)
    (addOpt "test_mode" (r.test_mode.map .bool)
    (addOpt "title" (r.title.map .str) [])))))))))))))

/-! #### Deserialization of the outbound records (derived `Deserialize`;
every optional field carries `#[serde(default)]`, so an absent key is
`None`). -/

/-- Deserializer for `SMSPhoneNumberType`. -/
def deSMSType : Json → Except String SMSPhoneNumberType
  | .str "authentication" => .ok .Authentication
  | .str "delivery" => .ok .Delivery
  | _ => .error "unknown variant of SMSPhoneNumberType"

/-- Deserializer for `SubSignatureRequestTemplateSigner`. -/
def deSigner (j : Json) : Except String SubSignatureRequestTemplateSigner := do
  let role ← getReq j "role" deStr
  let name ← getReq j "name" deStr
  let email_address ← getReq j "email_address" deStr
  let pin ← getOpt j "pin" deStr
  let sms_phone_number ← getOpt j "sms_phone_number" deStr
  let sms_phone_number_type ← getOpt j "sms_phone_number_type" deSMSType
  .ok { role, name, email_address, pin, sms_phone_number, sms_phone_number_type }

/-- Deserializer for `SubCC`. -/
def deSubCC (j : Json) : Except String SubCC := do
  let role ← getReq j "role" deStr
  let email ← getReq j "email" deStr
  .ok { role, email }

/-- Deserializer for `SubCustomField`. -/
def deSubCustomField (j : Json) : Except String SubCustomField := do
  let name ← getReq j "name" deStr
  let editor ← getOpt j "editor" deStr
  let required ← getOpt j "required" deBool
  let value ← getOpt j "value" deStr
  .ok { name, editor, required, value }

/-- Deserializer for `SubSigningOptionsDefaultType`. -/
def deDefaultType : Json → Except String SubSigningOptionsDefaultType
  | .str "draw" => .ok .Draw
  | .str "phone" => .ok .Phone
  | .str "type" => .ok .Type
  | .str "upload" => .ok .Upload
  | _ => .error "unknown variant of SubSigningOptionsDefaultType"

/-- Deserializer for `SubSigningOptions` (`o_type` read from key `type`). -/
def deSigningOptions (j : Json) : Except String SubSigningOptions := do
  let default_type ← getReq j "default_type" deDefaultType
  let draw ← getOpt j "draw" deBool
  let phone ← getOpt j "phone" deBool
  let o_type ← getOpt j "type" deBool
  let upload ← getOpt j "upload" deBool
  .ok { default_type, draw, phone, o_type, upload }

/-- Deserializer for `Vec<Vec<u8>>`. -/
def deFiles : Json → Except String (List (List (Fin 256))) :=
  deList (deList deU8)

/-- Deserializer for `SendSignatureRequest`. -/
def deSendSignatureRequest (j : Json) : Except String SendSignatureRequest := do
  let signers ← getReq j "signers" (deList deSigner)
  let template_ids ← getReq j "template_ids" (deList deStr)
  let allow_decline ← getOpt j "allow_decline" deBool
  let ccs ← getOpt j "ccs" (deList deSubCC)
  let client_id ← getOpt j "client_id" deStr
  let custom_fields ← getOpt j "custom_fields" (deList deSubCustomField)
  let files ← getOpt j "files" deFiles
  let file_urls ← getOpt j "file_urls" (deList deStr)
  let is_eid ← getOpt j "is_eid" deBool
  let message ← getOpt j "message" deStr
  let metadata ← getOpt j "metadata" deStrMap
  let signing_options ← getOpt j "signing_options" deSigningOptions
  let signing_redirect_url ← getOpt j "signing_redirect_url" deStr
  let test_mode ← getOpt j "test_mode" deBool
  let title ← getOpt j "title" deStr
  .ok { signers, template_ids, allow_decline, ccs, client_id, custom_fields,
        files, file_urls, is_eid, message, metadata, signing_options,
        signing_redirect_url, test_mode, title }

/-! ### Concrete values (the scenario bodies of spec.md §8) -/

/-- The success-envelope payload of the spec's first §8 scenario. -/
def okPayload : Json :=
  .obj [("signature_request_id", .str "abc123"), ("title", .str "T"),
        ("original_title", .str "T"), ("metadata", .obj []),
        ("created_at", .num 1), ("is_complete", .bool false),
        ("is_declined", .bool false), ("has_error", .bool false),
        ("files_url", .str "u"), ("details_url", .str "u"),
        ("cc_email_addresses", .arr []), ("signatures", .arr [])]

/-- The §8 scenario body carrying `okPayload` and no warnings. -/
def okBody : Json := .obj [("signature_request", okPayload)]

/-- The record `okPayload` deserializes to. -/
def okRecord : SignatureRequestResponse where
  test_mode := none
  signature_request_id := "abc123"
  requester_email_address := none
  title := "T"
  original_title := "T"
  subject := none
  message := none
  metadata := []
  created_at := 1
  expires_at := none
  is_complete := false
  is_declined := false
  has_error := false
  files_url := "u"
  signing_url := none
  details_url := "u"
  cc_email_addresses := []
  signing_redirect_url := none
  final_copy_uri := none
  template_ids := none
  custom_ids := none
  attachments := none
  response_data := none
  signatures := []
  bulk_send_job_id := none

/-- The §8 error body: `error_path` absent. -/
def errBody : Json :=
  .obj [("error", .obj [("error_msg", .str "Invalid template"),
                        ("error_name", .str "invalid_params")])]

/-- Two distinct warnings, in a fixed order. -/
def warnA : WarningResponse := { warning_msg := "w1", warning_name := "n1" }

/-- Second warning of the pair. -/
def warnB : WarningResponse := { warning_msg := "w2", warning_name := "n2" }

/-- JSON form of `warnA`. -/
def warnAJson : Json :=
  .obj [("warning_msg", .str "w1"), ("warning_name", .str "n1")]

/-- JSON form of `warnB`. -/
def warnBJson : Json :=
  .obj [("warning_msg", .str "w2"), ("warning_name", .str "n2")]

/-- Success body with a two-element warnings array. -/
def okBodyWarns : Json :=
  .obj [("signature_request", okPayload),
        ("warnings", .arr [warnAJson, warnBJson])]

/-- Success body with an empty warnings array. -/
def okBodyEmptyWarns : Json :=
  .obj [("signature_request", okPayload), ("warnings", .arr [])]

/-- Success payload next to a malformed (non-array) warnings value. -/
def okBodyBadWarns : Json :=
  .obj [("signature_request", okPayload), ("warnings", .num 42)]

/-- A bare signer, all optional fields unset. -/
def signer0 : SubSignatureRequestTemplateSigner where
  role := "Signer"
  name := "John Doe"
  email_address := "john@example.com"
  pin := none
  sms_phone_number := none
  sms_phone_number_type := none

/-- A bare custom field, all optional fields unset. -/
def customField0 : SubCustomField where
  name := "field"
  editor := none
  required := none
  value := none

/-- Bare signing options, all optional fields unset. -/
def signingOptions0 : SubSigningOptions where
  default_type := .Draw
  draw := none
  phone := none
  o_type := none
  upload := none

/-! ## Helper lemmas -/

/-- `Except.bind` on a success. -/
theorem except_bind_ok {α β ε : Type} (a : α) (f : α → Except ε β) :
    (Except.ok a >>= f) = f a := rfl

/-- `Except.bind` on a failure. -/
theorem except_bind_error {α β ε : Type} (e : ε) (f : α → Except ε β) :
    ((Except.error e : Except ε α) >>= f) = .error e := rfl

/-- A successful elementwise deserialization yields as many values as
there were elements. -/
theorem deElems_ok_length {α : Type} {de : Json → Except String α} :
    ∀ {xs : List Json} {ys : List α}, deElems de xs = .ok ys →
      ys.length = xs.length := by
  intro xs
  induction xs with
  | nil =>
    intro ys h
    simp only [deElems, Except.ok.injEq] at h
    simp [← h]
  | cons x xs ih =>
    intro ys h
    simp only [deElems] at h
    cases hx : de x with
    | error e => rw [hx] at h; exact absurd h (by simp)
    | ok a =>
      rw [hx] at h
      cases hrest : deElems de xs with
      | error e => rw [hrest] at h; exact absurd h (by simp)
      | ok as =>
        rw [hrest] at h
        simp only [Except.ok.injEq] at h
        subst h
        simp [ih hrest]

/-- A successful elementwise deserialization maps the `i`-th source element
to the `i`-th result: order is preserved. -/
theorem deElems_ok_get {α : Type} {de : Json → Except String α} :
    ∀ {xs : List Json} {ys : List α}, deElems de xs = .ok ys →
      ∀ i (h1 : i < xs.length) (h2 : i < ys.length),
        de (xs.get ⟨i, h1⟩) = .ok (ys.get ⟨i, h2⟩) := by
  intro xs
  induction xs with
  | nil => intro ys h i h1 h2; exact absurd h1 (by simp)
  | cons x xs ih =>
    intro ys h i h1 h2
    simp only [deElems] at h
    cases hx : de x with
    | error e => rw [hx] at h; exact absurd h (by simp)
    | ok a =>
      rw [hx] at h
      cases hrest : deElems de xs with
      | error e => rw [hrest] at h; exact absurd h (by simp)
      | ok as =>
        rw [hrest] at h
        simp only [Except.ok.injEq] at h
        subst h
        cases i with
        | zero => simpa using hx
        | succ n => exact ih hrest n (by simpa using h1) (by simpa using h2)

/-- Looking a key up across an optional field: the field answers exactly
when the key matches and the field is set. -/
theorem lookupField_addOpt (key k : String) (v : Option Json)
    (rest : List (String × Json)) :
    lookupField (addOpt k v rest) key =
      if key = k then
        match v with
        | some j => some j
        | none => lookupField rest key
      else lookupField rest key := by
  cases v with
  | none => simp [addOpt]
  | some j => simp [lookupField, addOpt]

/-- `getReq` on a present, well-formed field. -/
theorem getReq_of {α : Type} {j : Json} {k : String}
    {de : Json → Except String α} {v : Json} {a : α}
    (hget : j.get k = some v) (hde : de v = .ok a) :
    getReq j k de = .ok a := by
  simp [getReq, hget, hde]

/-- `getOpt` on a field whose serialized form mirrors an `Option`. -/
theorem getOpt_of_map {α : Type} {j : Json} {k : String}
    {de : Json → Except String α} {f : α → Json} {o : Option α}
    (hget : j.get k = Option.map f o)
    (hde : ∀ a, deOpt de (f a) = .ok (some a)) :
    getOpt j k de = .ok o := by
  cases o with
  | none => simp [getOpt, hget]
  | some a => simp [getOpt, hget, hde]

/-- Elementwise deserialization inverts elementwise serialization. -/
theorem deElems_map {α : Type} {de : Json → Except String α} {f : α → Json}
    (h : ∀ a, de (f a) = .ok a) (l : List α) :
    deElems de (l.map f) = .ok l := by
  induction l with
  | nil => rfl
  | cons a l ih => simp only [List.map_cons, deElems, h a, ih]

/-- List deserialization inverts list serialization. -/
theorem deList_map {α : Type} {de : Json → Except String α} {f : α → Json}
    (h : ∀ a, de (f a) = .ok a) (l : List α) :
    deList de (.arr (l.map f)) = .ok l := by
  simp only [deList, deElems_map h]

/-- `deOpt` over strings. -/
theorem deOpt_str (s : String) : deOpt deStr (.str s) = .ok (some s) := rfl

/-- `deOpt` over booleans. -/
theorem deOpt_bool (b : Bool) : deOpt deBool (.bool b) = .ok (some b) := rfl

/-- `deOpt` over an array value reduces to plain deserialization. -/
theorem deOpt_arr {α : Type} (de : Json → Except String α) (xs : List Json) :
    deOpt de (.arr xs) = (de (.arr xs)).map some := rfl

/-- `deOpt` over an object value reduces to plain deserialization. -/
theorem deOpt_obj {α : Type} (de : Json → Except String α)
    (fields : List (String × Json)) :
    deOpt de (.obj fields) = (de (.obj fields)).map some := rfl

/-- `deOpt` over a serialized list. -/
theorem deOpt_list {α : Type} {de : Json → Except String α} {f : α → Json}
    (h : ∀ a, de (f a) = .ok a) (l : List α) :
    deOpt (deList de) (.arr (l.map f)) = .ok (some l) := by
  rw [deOpt_arr, deList_map h]; rfl

/-! ### Field lookups on the serialized `SendSignatureRequest` -/

/-- `signers` is always emitted first. -/
theorem get_ser_signers (r : SendSignatureRequest) :
    (serSendSignatureRequest r).get "signers" =
      some (.arr (r.signers.map serSigner)) := rfl

/-- `template_ids` is always emitted. -/
theorem get_ser_template_ids (r : SendSignatureRequest) :
    (serSendSignatureRequest r).get "template_ids" =
      some (.arr (r.template_ids.map Json.str)) := rfl

/-- `allow_decline` is emitted exactly when set. -/
theorem get_ser_allow_decline (r : SendSignatureRequest) :
    (serSendSignatureRequest r).get "allow_decline" =
      r.allow_decline.map Json.bool := by
  obtain ⟨_, _, f, _, _, _, _, _, _, _, _, _, _, _, _⟩ := r
  cases f <;>
    simp [serSendSignatureRequest, Json.get, lookupField, lookupField_addOpt]

/-- `title` (the last field) is emitted exactly when set. -/
theorem get_ser_title (r : SendSignatureRequest) :
    (serSendSignatureRequest r).get "title" = r.title.map Json.str := by
  obtain ⟨_, _, _, _, _, _, _, _, _, _, _, _, _, _, f⟩ := r
  cases f <;>
    simp [serSendSignatureRequest, Json.get, lookupField, lookupField_addOpt]

/-- `ccs` is emitted exactly when set. -/
theorem get_ser_ccs (r : SendSignatureRequest) :
    (serSendSignatureRequest r).get "ccs" =
      r.ccs.map fun l => Json.arr (l.map serCC) := by
  obtain ⟨_, _, _, f, _, _, _, _, _, _, _, _, _, _, _⟩ := r
  cases f <;>
    simp [serSendSignatureRequest, Json.get, lookupField, lookupField_addOpt]

/-- `client_id` is emitted exactly when set. -/
theorem get_ser_client_id (r : SendSignatureRequest) :
    (serSendSignatureRequest r).get "client_id" = r.client_id.map Json.str := by
  obtain ⟨_, _, _, _, f, _, _, _, _, _, _, _, _, _, _⟩ := r
  cases f <;>
    simp [serSendSignatureRequest, Json.get, lookupField, lookupField_addOpt]

/-- `custom_fields` is emitted exactly when set. -/
theorem get_ser_custom_fields (r : SendSignatureRequest) :
    (serSendSignatureRequest r).get "custom_fields" =
      r.custom_fields.map fun l => Json.arr (l.map serCustomField) := by
  obtain ⟨_, _, _, _, _, f, _, _, _, _, _, _, _, _, _⟩ := r
  cases f <;>
    simp [serSendSignatureRequest, Json.get, lookupField, lookupField_addOpt]

/-- `files` is emitted exactly when set. -/
theorem get_ser_files (r : SendSignatureRequest) :
    (serSendSignatureRequest r).get "files" = r.files.map serFiles := by
  obtain ⟨_, _, _, _, _, _, f, _, _, _, _, _, _, _, _⟩ := r
  cases f <;>
    simp [serSendSignatureRequest, Json.get, lookupField, lookupField_addOpt]

/-- `file_urls` is emitted exactly when set. -/
theorem get_ser_file_urls (r : SendSignatureRequest) :
    (serSendSignatureRequest r).get "file_urls" =
      r.file_urls.map serStrList := by
  obtain ⟨_, _, _, _, _, _, _, f, _, _, _, _, _, _, _⟩ := r
  cases f <;>
    simp [serSendSignatureRequest, Json.get, lookupField, lookupField_addOpt]

/-- `is_eid` is emitted exactly when set. -/
theorem get_ser_is_eid (r : SendSignatureRequest) :
    (serSendSignatureRequest r).get "is_eid" = r.is_eid.map Json.bool := by
  obtain ⟨_, _, _, _, _, _, _, _, f, _, _, _, _, _, _⟩ := r
  cases f <;>
    simp [serSendSignatureRequest, Json.get, lookupField, lookupField_addOpt]

/-- `message` is emitted exactly when set. -/
theorem get_ser_message (r : SendSignatureRequest) :
    (serSendSignatureRequest r).get "message" = r.message.map Json.str := by
  obtain ⟨_, _, _, _, _, _, _, _, _, f, _, _, _, _, _⟩ := r
  cases f <;>
    simp [serSendSignatureRequest, Json.get, lookupField, lookupField_addOpt]

/-- `metadata` is emitted exactly when set. -/
theorem get_ser_metadata (r : SendSignatureRequest) :
    (serSendSignatureRequest r).get "metadata" = r.metadata.map serStrMap := by
  obtain ⟨_, _, _, _, _, _, _, _, _, _, f, _, _, _, _⟩ := r
  cases f <;>
    simp [serSendSignatureRequest, Json.get, lookupField, lookupField_addOpt]

/-- `signing_options` is emitted exactly when set. -/
theorem get_ser_signing_options (r : SendSignatureRequest) :
    (serSendSignatureRequest r).get "signing_options" =
      r.signing_options.map serSigningOptions := by
  obtain ⟨_, _, _, _, _, _, _, _, _, _, _, f, _, _, _⟩ := r
  cases f <;>
    simp [serSendSignatureRequest, Json.get, lookupField, lookupField_addOpt]

/-- `signing_redirect_url` is emitted exactly when set. -/
theorem get_ser_signing_redirect_url (r : SendSignatureRequest) :
    (serSendSignatureRequest r).get "signing_redirect_url" =
      r.signing_redirect_url.map Json.str := by
  obtain ⟨_, _, _, _, _, _, _, _, _, _, _, _, f, _, _⟩ := r
  cases f <;>
    simp [serSendSignatureRequest, Json.get, lookupField, lookupField_addOpt]

/-- `test_mode` is emitted exactly when set. -/
theorem get_ser_test_mode (r : SendSignatureRequest) :
    (serSendSignatureRequest r).get "test_mode" = r.test_mode.map Json.bool := by
  obtain ⟨_, _, _, _, _, _, _, _, _, _, _, _, _, f, _⟩ := r
  cases f <;>
    simp [serSendSignatureRequest, Json.get, lookupField, lookupField_addOpt]

/-! ### Field lookups on the serialized nested records -/

/-- `role` on a serialized signer. -/
theorem get_serSigner_role (s : SubSignatureRequestTemplateSigner) :
    (serSigner s).get "role" = some (.str s.role) := rfl

/-- `name` on a serialized signer. -/
theorem get_serSigner_name (s : SubSignatureRequestTemplateSigner) :
    (serSigner s).get "name" = some (.str s.name) := rfl

/-- `email_address` on a serialized signer. -/
theorem get_serSigner_email_address (s : SubSignatureRequestTemplateSigner) :
    (serSigner s).get "email_address" = some (.str s.email_address) := rfl

/-- `pin` on a serialized signer is emitted exactly when set. -/
theorem get_serSigner_pin (s : SubSignatureRequestTemplateSigner) :
    (serSigner s).get "pin" = s.pin.map Json.str := by
  obtain ⟨_, _, _, f, _, _⟩ := s
  cases f <;> simp [serSigner, Json.get, lookupField, lookupField_addOpt]

/-- `sms_phone_number` on a serialized signer is emitted exactly when set. -/
theorem get_serSigner_sms_phone_number (s : SubSignatureRequestTemplateSigner) :
    (serSigner s).get "sms_phone_number" = s.sms_phone_number.map Json.str := by
  obtain ⟨_, _, _, _, f, _⟩ := s
  cases f <;> simp [serSigner, Json.get, lookupField, lookupField_addOpt]

/-- `sms_phone_number_type` on a serialized signer is emitted exactly when
set. -/
theorem get_serSigner_sms_phone_number_type
    (s : SubSignatureRequestTemplateSigner) :
    (serSigner s).get "sms_phone_number_type" =
      s.sms_phone_number_type.map serSMSType := by
  obtain ⟨_, _, _, _, _, f⟩ := s
  cases f <;> simp [serSigner, Json.get, lookupField, lookupField_addOpt]

/-- `name` on a serialized custom field. -/
theorem get_serCustomField_name (c : SubCustomField) :
    (serCustomField c).get "name" = some (.str c.name) := rfl

/-- `editor` on a serialized custom field is emitted exactly when set. -/
theorem get_serCustomField_editor (c : SubCustomField) :
    (serCustomField c).get "editor" = c.editor.map Json.str := by
  obtain ⟨_, f, _, _⟩ := c
  cases f <;> simp [serCustomField, Json.get, lookupField, lookupField_addOpt]

/-- `required` on a serialized custom field is emitted exactly when set. -/
theorem get_serCustomField_required (c : SubCustomField) :
    (serCustomField c).get "required" = c.required.map Json.bool := by
  obtain ⟨_, _, f, _⟩ := c
  cases f <;> simp [serCustomField, Json.get, lookupField, lookupField_addOpt]

/-- `value` on a serialized custom field is emitted exactly when set. -/
theorem get_serCustomField_value (c : SubCustomField) :
    (serCustomField c).get "value" = c.value.map Json.str := by
  obtain ⟨_, _, _, f⟩ := c
  cases f <;> simp [serCustomField, Json.get, lookupField, lookupField_addOpt]

/-- `default_type` on serialized signing options. -/
theorem get_serSigningOptions_default_type (o : SubSigningOptions) :
    (serSigningOptions o).get "default_type" =
      some (serDefaultType o.default_type) := rfl

/-- `draw` on serialized signing options is emitted exactly when set. -/
theorem get_serSigningOptions_draw (o : SubSigningOptions) :
    (serSigningOptions o).get "draw" = o.draw.map Json.bool := by
  obtain ⟨_, f, _, _, _⟩ := o
  cases f <;> simp [serSigningOptions, Json.get, lookupField, lookupField_addOpt]

/-- `phone` on serialized signing options is emitted exactly when set. -/
theorem get_serSigningOptions_phone (o : SubSigningOptions) :
    (serSigningOptions o).get "phone" = o.phone.map Json.bool := by
  obtain ⟨_, _, f, _, _⟩ := o
  cases f <;> simp [serSigningOptions, Json.get, lookupField, lookupField_addOpt]

/-- The `o_type` field goes out under the JSON key `type`, exactly when
set. -/
theorem get_serSigningOptions_type (o : SubSigningOptions) :
    (serSigningOptions o).get "type" = o.o_type.map Json.bool := by
  obtain ⟨_, _, _, f, _⟩ := o
  cases f <;> simp [serSigningOptions, Json.get, lookupField, lookupField_addOpt]

/-- `upload` on serialized signing options is emitted exactly when set. -/
theorem get_serSigningOptions_upload (o : SubSigningOptions) :
    (serSigningOptions o).get "upload" = o.upload.map Json.bool := by
  obtain ⟨_, _, _, _, f⟩ := o
  cases f <;> simp [serSigningOptions, Json.get, lookupField, lookupField_addOpt]

/-! ### Roundtrip lemmas for the nested outbound records -/

/-- String deserialization inverts string serialization. -/
theorem deStr_str (s : String) : deStr (.str s) = .ok s := rfl

/-- The SMS-type enum roundtrips through its lowercase wire names. -/
theorem deSMSType_round (t : SMSPhoneNumberType) :
    deOpt deSMSType (serSMSType t) = .ok (some t) := by cases t <;> rfl

/-- The default-type enum roundtrips through its lowercase wire names. -/
theorem deDefaultType_round (t : SubSigningOptionsDefaultType) :
    deDefaultType (serDefaultType t) = .ok t := by cases t <;> rfl

/-- A signer roundtrips through serialization. -/
theorem deSigner_round (s : SubSignatureRequestTemplateSigner) :
    deSigner (serSigner s) = .ok s := by
  rw [deSigner,
    getReq_of (get_serSigner_role s) (deStr_str s.role),
    getReq_of (get_serSigner_name s) (deStr_str s.name),
    getReq_of (get_serSigner_email_address s) (deStr_str s.email_address),
    getOpt_of_map (get_serSigner_pin s) deOpt_str,
    getOpt_of_map (get_serSigner_sms_phone_number s) deOpt_str,
    getOpt_of_map (get_serSigner_sms_phone_number_type s) deSMSType_round]
  rfl

/-- A CC recipient roundtrips through serialization. -/
theorem deSubCC_round (c : SubCC) : deSubCC (serCC c) = .ok c := rfl

/-- A custom field roundtrips through serialization. -/
theorem deSubCustomField_round (c : SubCustomField) :
    deSubCustomField (serCustomField c) = .ok c := by
  rw [deSubCustomField,
    getReq_of (get_serCustomField_name c) (deStr_str c.name),
    getOpt_of_map (get_serCustomField_editor c) deOpt_str,
    getOpt_of_map (get_serCustomField_required c) deOpt_bool,
    getOpt_of_map (get_serCustomField_value c) deOpt_str]
  rfl

/-- Signing options roundtrip through serialization. -/
theorem deSigningOptions_round (o : SubSigningOptions) :
    deSigningOptions (serSigningOptions o) = .ok o := by
  rw [deSigningOptions,
    getReq_of (get_serSigningOptions_default_type o)
      (deDefaultType_round o.default_type),
    getOpt_of_map (get_serSigningOptions_draw o) deOpt_bool,
    getOpt_of_map (get_serSigningOptions_phone o) deOpt_bool,
    getOpt_of_map (get_serSigningOptions_type o) deOpt_bool,
    getOpt_of_map (get_serSigningOptions_upload o) deOpt_bool]
  rfl

/-- Optional signing options roundtrip. -/
theorem deOpt_signingOptions (o : SubSigningOptions) :
    deOpt deSigningOptions (serSigningOptions o) = .ok (some o) := by
  show (deSigningOptions (serSigningOptions o)).map some = _
  rw [deSigningOptions_round o]
  rfl

/-- A byte roundtrips through its JSON number. -/
theorem deU8_round (i : Fin 256) : deU8 (.num i.val) = .ok i := by
  have h : (0 : Int) ≤ (i.val : Int) ∧ (i.val : Int) < 256 := by
    have := i.isLt
    omega
  simp [deU8, h]

/-- One file's bytes roundtrip through serialization. -/
theorem deBytes_round (b : List (Fin 256)) :
    deList deU8 (serBytes b) = .ok b := by
  show deList deU8 (.arr (b.map fun i => .num i.val)) = .ok b
  exact deList_map deU8_round b

/-- An optional file list roundtrips through serialization. -/
theorem deOpt_files (fs : List (List (Fin 256))) :
    deOpt deFiles (serFiles fs) = .ok (some fs) := by
  show (deFiles (serFiles fs)).map some = _
  show (deList (deList deU8) (.arr (fs.map serBytes))).map some = _
  rw [deList_map deBytes_round fs]
  rfl

/-- An optional string list roundtrips through serialization. -/
theorem deOpt_strList (l : List String) :
    deOpt (deList deStr) (serStrList l) = .ok (some l) := by
  show (deList deStr (.arr (l.map Json.str))).map some = _
  rw [deList_map deStr_str l]
  rfl

/-- The metadata association list roundtrips elementwise. -/
theorem deStrMapElems_map (m : List (String × String)) :
    deStrMap.deStrMapElems (m.map fun p => (p.1, .str p.2)) = .ok m := by
  induction m with
  | nil => rfl
  | cons p m ih =>
    simp only [List.map_cons, deStrMap.deStrMapElems, deStr_str, ih]
    rfl

/-- An optional metadata map roundtrips through serialization. -/
theorem deOpt_strMap (m : List (String × String)) :
    deOpt deStrMap (serStrMap m) = .ok (some m) := by
  show (deStrMap (serStrMap m)).map some = _
  show (deStrMap.deStrMapElems (m.map fun p => (p.1, .str p.2))).map some = _
  rw [deStrMapElems_map m]
  rfl

/-! ## Claim theorems -/

/-- Claim C7: serializing any outbound request record and deserializing it
back returns exactly the same record — every field that was set by the
builder (`SendSignatureRequest.new` plus any sequence of setters produces
such a record, see the claim-C10 theorem) comes back equal, and every
field left unset comes back unset, with no default injected. -/
theorem send_request_roundtrip (r : SendSignatureRequest) :
    deSendSignatureRequest (serSendSignatureRequest r) = .ok r := by
  rw [deSendSignatureRequest,
    getReq_of (get_ser_signers r) (deList_map deSigner_round r.signers),
    getReq_of (get_ser_template_ids r) (deList_map deStr_str r.template_ids),
    getOpt_of_map (get_ser_allow_decline r) deOpt_bool,
    getOpt_of_map (get_ser_ccs r) (deOpt_list deSubCC_round),
    getOpt_of_map (get_ser_client_id r) deOpt_str,
    getOpt_of_map (get_ser_custom_fields r) (deOpt_list deSubCustomField_round),
    getOpt_of_map (get_ser_files r) deOpt_files,
    getOpt_of_map (get_ser_file_urls r) deOpt_strList,
    getOpt_of_map (get_ser_is_eid r) deOpt_bool,
    getOpt_of_map (get_ser_message r) deOpt_str,
    getOpt_of_map (get_ser_metadata r) deOpt_strMap,
    getOpt_of_map (get_ser_signing_options r) deOpt_signingOptions,
    getOpt_of_map (get_ser_signing_redirect_url r) deOpt_str,
    getOpt_of_map (get_ser_test_mode r) deOpt_bool,
    getOpt_of_map (get_ser_title r) deOpt_str]
  rfl

/-- Claim C1 (code bug): on the spec's §8 scenario — HTTP 400 with body
`error_msg` "Invalid template", `error_name` "invalid_params", no
`error_path` — both operations do fail with the provider error carrying
the verbatim message, name, and absent path, but its `status` field is
serde's skip-default `StatusCode::OK` (200), not the observed 400: the
client never assigns the observed status, contradicting the field's own
doc comment ("set by client", src/lib.rs:101) and the spec. -/
theorem provider_error_keeps_default_status :
    get_signature_request 400 errBody =
      .error (.ResponseError { status := 200, error_msg := "Invalid template",
                               error_path := none, error_name := "invalid_params" })
    ∧ send_with_template 400 errBody =
      .error (.ResponseError { status := 200, error_msg := "Invalid template",
                               error_path := none, error_name := "invalid_params" })
    ∧ (200 : Nat) ≠ 400 :=
  ⟨rfl, rfl, by decide⟩

/-- Counterexample to claim C3 as stated: `errBody` is valid JSON lacking
the payload key, yet at HTTP status 400 both operations fail with the
typed provider error, not with the "missing key" parse error — so "fails
with the missing-key parse error regardless of the HTTP status" is false
for the operations. -/
theorem missing_key_not_raised_on_error_path :
    errBody.get "signature_request" = none
    ∧ get_signature_request 400 errBody =
      .error (.ResponseError { status := 200, error_msg := "Invalid template",
                               error_path := none, error_name := "invalid_params" })
    ∧ send_with_template 400 errBody =
      .error (.ResponseError { status := 200, error_msg := "Invalid template",
                               error_path := none, error_name := "invalid_params" }) :=
  ⟨rfl, rfl, rfl⟩

/-- Claim C3 (amended): for every valid-JSON response body lacking the
top-level payload key `signature_request`, on HTTP status 200 — the only
status on which envelope parsing runs — both operations fail with the
distinct "missing key" parse error, never a provider error. -/
theorem missing_key_parse_error (body : Json)
    (h : body.get "signature_request" = none) :
    get_signature_request 200 body =
      .error (.Other (.missingKey "signature_request"))
    ∧ send_with_template 200 body =
      .error (.Other (.missingKey "signature_request")) := by
  constructor <;>
    simp [get_signature_request, send_with_template, parse_response, h,
          except_bind_ok, except_bind_error]

/-- Witness for the claim-C3 theorem, at the spec's §8 scenario
`get_signature_request("missing-id")` returning HTTP 200 with body `{}`. -/
theorem missing_key_parse_error_witness :
    get_signature_request 200 (.obj []) =
      .error (.Other (.missingKey "signature_request"))
    ∧ send_with_template 200 (.obj []) =
      .error (.Other (.missingKey "signature_request")) :=
  missing_key_parse_error (.obj []) rfl

/-- Counterexample to claim C2 as stated: 201 is an HTTP success status,
yet on a 201 response carrying the valid success envelope both operations
take the error path (they attempt the error envelope and fail with a
`Serde` error), not the success path. -/
theorem status_201_takes_error_path :
    (200 ≤ 201 ∧ 201 ≤ 299)
    ∧ tookSuccessPath (get_signature_request 201 okBody) = false
    ∧ tookErrorPath (get_signature_request 201 okBody) = true
    ∧ tookSuccessPath (send_with_template 201 okBody) = false
    ∧ tookErrorPath (send_with_template 201 okBody) = true :=
  ⟨⟨by decide, by decide⟩, rfl, rfl, rfl, rfl⟩

/-- Claim C2 (amended): each operation takes the success path (parse the
envelope with payload key `signature_request`) exactly when the HTTP
status is 200 (`StatusCode::OK`) — not for every 2xx status — and the
error path (parse the error envelope, fail with the typed provider error)
otherwise; the two paths are complementary, so no response is handled by
both or neither. -/
theorem success_path_iff_status_200 (status : Nat) (body : Json) :
    (tookSuccessPath (get_signature_request status body) = true ↔ status = 200)
    ∧ tookErrorPath (get_signature_request status body)
        = !tookSuccessPath (get_signature_request status body)
    ∧ (tookSuccessPath (send_with_template status body) = true ↔ status = 200)
    ∧ tookErrorPath (send_with_template status body)
        = !tookSuccessPath (send_with_template status body) := by
  by_cases h : status = 200
  · subst h
    simp only [get_signature_request, send_with_template, if_pos rfl]
    cases hp : parse_response deSignatureRequestResponse body "signature_request" with
    | ok v =>
      obtain ⟨a, w⟩ := v
      simp [tookSuccessPath, tookErrorPath]
    | error e => simp [tookSuccessPath, tookErrorPath]
  · simp only [get_signature_request, send_with_template, if_neg h]
    cases he : deErrorResponse body with
    | ok v => simp [tookSuccessPath, tookErrorPath, h]
    | error e => simp [tookSuccessPath, tookErrorPath, h]

/-- Claim C4: a body carrying a deserializable payload under the payload
key and a warnings array whose elements all deserialize parses to the
record paired with `Some` of the warning list, and that list is the
elementwise, order-preserving image of the source JSON array. -/
theorem parse_with_warnings_ordered (body payload : Json)
    (rec : SignatureRequestResponse) (ws : List Json)
    (warr : List WarningResponse)
    (hp : body.get "signature_request" = some payload)
    (hd : deSignatureRequestResponse payload = .ok rec)
    (hw : body.get "warnings" = some (.arr ws))
    (hws : deElems deWarning ws = .ok warr) :
    parse_response deSignatureRequestResponse body "signature_request"
      = .ok (rec, some warr)
    ∧ warr.length = ws.length
    ∧ ∀ i (h1 : i < ws.length) (h2 : i < warr.length),
        deWarning (ws.get ⟨i, h1⟩) = .ok (warr.get ⟨i, h2⟩) := by
  refine ⟨?_, deElems_ok_length hws, deElems_ok_get hws⟩
  simp [parse_response, hp, hd, hw, deWarnings, deList, hws, except_bind_ok]

/-- Witness for the claim-C4 theorem: a concrete body with two distinct
warnings comes back with both, in source order. -/
theorem parse_with_warnings_ordered_witness :
    parse_response deSignatureRequestResponse okBodyWarns "signature_request"
      = .ok (okRecord, some [warnA, warnB]) :=
  (parse_with_warnings_ordered okBodyWarns okPayload okRecord
    [warnAJson, warnBJson] [warnA, warnB] rfl rfl rfl rfl).1

/-- Claim C5: a body carrying a deserializable payload and no top-level
`warnings` key parses to the record paired with `None`. -/
theorem parse_without_warnings (body payload : Json)
    (rec : SignatureRequestResponse)
    (hp : body.get "signature_request" = some payload)
    (hd : deSignatureRequestResponse payload = .ok rec)
    (hw : body.get "warnings" = none) :
    parse_response deSignatureRequestResponse body "signature_request"
      = .ok (rec, none) := by
  simp [parse_response, hp, hd, hw, except_bind_ok]

/-- Witness for the claim-C5 theorem, at the spec's §8 success scenario. -/
theorem parse_without_warnings_witness :
    parse_response deSignatureRequestResponse okBody "signature_request"
      = .ok (okRecord, none) :=
  parse_without_warnings okBody okPayload okRecord rfl rfl rfl

/-- Counterexample to claim C8 as stated: a body whose payload key is
present and deserializable but whose `warnings` value is malformed (the
number 42) makes envelope parsing fail — warnings content can affect the
success/failure classification. -/
theorem malformed_warnings_fail_parse :
    okBodyBadWarns.get "signature_request" = some okPayload
    ∧ deSignatureRequestResponse okPayload = .ok okRecord
    ∧ parse_response deSignatureRequestResponse okBodyBadWarns "signature_request"
        = .error (.warningsError "expected array") :=
  ⟨rfl, rfl, rfl⟩

/-- Claim C8 (amended): envelope parsing succeeds for every body whose
payload is present and deserializable and whose warnings value, when
present, is itself a valid warning list; and it fails for every body whose
payload is absent or malformed, whatever the warnings value is. -/
theorem warnings_noninterference :
    (∀ (body payload : Json) (rec : SignatureRequestResponse),
      body.get "signature_request" = some payload →
      deSignatureRequestResponse payload = .ok rec →
      (body.get "warnings" = none ∨
        ∃ w warr, body.get "warnings" = some w ∧ deWarnings w = .ok warr) →
      exceptIsOk
        (parse_response deSignatureRequestResponse body "signature_request")
        = true)
    ∧ (∀ body : Json, body.get "signature_request" = none →
      exceptIsOk
        (parse_response deSignatureRequestResponse body "signature_request")
        = false)
    ∧ (∀ (body payload : Json) (msg : String),
      body.get "signature_request" = some payload →
      deSignatureRequestResponse payload = .error msg →
      exceptIsOk
        (parse_response deSignatureRequestResponse body "signature_request")
        = false) := by
  refine ⟨?_, ?_, ?_⟩
  · intro body payload rec hp hd hor
    rcases hor with hw | ⟨w, warr, hw, hws⟩
    · simp [parse_response, hp, hd, hw, exceptIsOk, except_bind_ok]
    · simp [parse_response, hp, hd, hw, hws, exceptIsOk, except_bind_ok]
  · intro body hp
    simp [parse_response, hp, exceptIsOk, except_bind_ok, except_bind_error]
  · intro body payload msg hp hd
    simp [parse_response, hp, hd, exceptIsOk, except_bind_ok,
          except_bind_error]

/-- Witness for the claim-C8 theorem: both directions at concrete bodies —
a valid-warnings body parses, a payload-free body does not. -/
theorem warnings_noninterference_witness :
    exceptIsOk
      (parse_response deSignatureRequestResponse okBodyWarns "signature_request")
      = true
    ∧ exceptIsOk
      (parse_response deSignatureRequestResponse (.obj []) "signature_request")
      = false :=
  ⟨warnings_noninterference.1 okBodyWarns okPayload okRecord rfl rfl
      (Or.inr ⟨.arr [warnAJson, warnBJson], [warnA, warnB], rfl, rfl⟩),
    warnings_noninterference.2.1 (.obj []) rfl⟩

/-- Claim C9: a body carrying a deserializable payload and a `warnings`
key holding the empty array parses to the record paired with
`Some(empty list)`, which is observably distinct from the `None` returned
when the key is absent. -/
theorem parse_empty_warnings (body payload : Json)
    (rec : SignatureRequestResponse)
    (hp : body.get "signature_request" = some payload)
    (hd : deSignatureRequestResponse payload = .ok rec)
    (hw : body.get "warnings" = some (.arr [])) :
    parse_response deSignatureRequestResponse body "signature_request"
      = .ok (rec, some [])
    ∧ (some ([] : List WarningResponse)) ≠ none := by
  refine ⟨?_, by simp⟩
  simp [parse_response, hp, hd, hw, deWarnings, deList, deElems,
        except_bind_ok]

/-- Witness for the claim-C9 theorem, at the concrete empty-warnings body. -/
theorem parse_empty_warnings_witness :
    parse_response deSignatureRequestResponse okBodyEmptyWarns
      "signature_request" = .ok (okRecord, some []) :=
  (parse_empty_warnings okBodyEmptyWarns okPayload okRecord rfl rfl rfl).1

/-- Claim C6: whenever an optional field of an outbound request record is
unset, serialization omits that field's key entirely (so in particular it
never appears with a `null` value) — for each of the thirteen optional
fields of `SendSignatureRequest` and for every optional field of the
nested signer, custom-field, and signing-options records (the CC record
has no optional field, so the claim is vacuous for it). -/
theorem unset_optional_fields_omitted :
    (∀ r : SendSignatureRequest,
      (r.allow_decline = none →
        (serSendSignatureRequest r).get "allow_decline" = none)
      ∧ (r.ccs = none → (serSendSignatureRequest r).get "ccs" = none)
      ∧ (r.client_id = none →
        (serSendSignatureRequest r).get "client_id" = none)
      ∧ (r.custom_fields = none →
        (serSendSignatureRequest r).get "custom_fields" = none)
      ∧ (r.files = none → (serSendSignatureRequest r).get "files" = none)
      ∧ (r.file_urls = none →
        (serSendSignatureRequest r).get "file_urls" = none)
      ∧ (r.is_eid = none → (serSendSignatureRequest r).get "is_eid" = none)
      ∧ (r.message = none → (serSendSignatureRequest r).get "message" = none)
      ∧ (r.metadata = none →
        (serSendSignatureRequest r).get "metadata" = none)
      ∧ (r.signing_options = none →
        (serSendSignatureRequest r).get "signing_options" = none)
      ∧ (r.signing_redirect_url = none →
        (serSendSignatureRequest r).get "signing_redirect_url" = none)
      ∧ (r.test_mode = none →
        (serSendSignatureRequest r).get "test_mode" = none)
      ∧ (r.title = none → (serSendSignatureRequest r).get "title" = none))
    ∧ (∀ s : SubSignatureRequestTemplateSigner,
      (s.pin = none → (serSigner s).get "pin" = none)
      ∧ (s.sms_phone_number = none →
        (serSigner s).get "sms_phone_number" = none)
      ∧ (s.sms_phone_number_type = none →
        (serSigner s).get "sms_phone_number_type" = none))
    ∧ (∀ c : SubCustomField,
      (c.editor = none → (serCustomField c).get "editor" = none)
      ∧ (c.required = none → (serCustomField c).get "required" = none)
      ∧ (c.value = none → (serCustomField c).get "value" = none))
    ∧ (∀ o : SubSigningOptions,
      (o.draw = none → (serSigningOptions o).get "draw" = none)
      ∧ (o.phone = none → (serSigningOptions o).get "phone" = none)
      ∧ (o.o_type = none → (serSigningOptions o).get "type" = none)
      ∧ (o.upload = none → (serSigningOptions o).get "upload" = none)) := by
  refine ⟨fun r =>
      ⟨?_, ?_, ?_, ?_, ?_, ?_, ?_, ?_, ?_, ?_, ?_, ?_, ?_⟩,
    fun s => ⟨?_, ?_, ?_⟩, fun c => ⟨?_, ?_, ?_⟩,
    fun o => ⟨?_, ?_, ?_, ?_⟩⟩ <;> intro h <;>
  simp [get_ser_allow_decline, get_ser_ccs, get_ser_client_id,
        get_ser_custom_fields, get_ser_files, get_ser_file_urls,
        get_ser_is_eid, get_ser_message, get_ser_metadata,
        get_ser_signing_options, get_ser_signing_redirect_url,
        get_ser_test_mode, get_ser_title, get_serSigner_pin,
        get_serSigner_sms_phone_number, get_serSigner_sms_phone_number_type,
        get_serCustomField_editor, get_serCustomField_required,
        get_serCustomField_value, get_serSigningOptions_draw,
        get_serSigningOptions_phone, get_serSigningOptions_type,
        get_serSigningOptions_upload, h]

/-- Witness for the claim-C6 theorem: on the fully-unset record built by
`SendSignatureRequest.new` (and bare nested records), none of the optional
keys appear in the serialized JSON. -/
theorem unset_optional_fields_omitted_witness :
    ((serSendSignatureRequest (SendSignatureRequest.new [] [])).get "title"
      = none)
    ∧ ((serSendSignatureRequest (SendSignatureRequest.new [] [])).get
        "allow_decline" = none)
    ∧ ((serSigner signer0).get "pin" = none)
    ∧ ((serCustomField customField0).get "value" = none)
    ∧ ((serSigningOptions signingOptions0).get "type" = none) :=
  ⟨(unset_optional_fields_omitted.1 (SendSignatureRequest.new [] [])).2.2.2.2.2.2.2.2.2.2.2.2 rfl,
   (unset_optional_fields_omitted.1 (SendSignatureRequest.new [] [])).1 rfl,
   (unset_optional_fields_omitted.2.1 signer0).1 rfl,
   (unset_optional_fields_omitted.2.2.1 customField0).2.2 rfl,
   (unset_optional_fields_omitted.2.2.2 signingOptions0).2.2.1 rfl⟩

/-- Claim C10: `SendSignatureRequest::new` stores the given signer and
template-id lists unchanged and leaves all thirteen optional fields unset,
and each builder setter updates exactly its own field to `Some` of its
argument, leaving every other field — `signers` and `template_ids`
included — unchanged (stated as equality with a single-field record
update). -/
theorem builder_setters_frame :
    (∀ (s : List SubSignatureRequestTemplateSigner) (t : List String),
      SendSignatureRequest.new s t =
        { signers := s, template_ids := t, allow_decline := none,
          ccs := none, client_id := none, custom_fields := none,
          files := none, file_urls := none, is_eid := none, message := none,
          metadata := none, signing_options := none,
          signing_redirect_url := none, test_mode := none, title := none })
    ∧ (∀ (r : SendSignatureRequest) (b : Bool),
      r.set_allow_decline b = { r with allow_decline := some b })
    ∧ (∀ (r : SendSignatureRequest) (l : List SubCC),
      r.set_ccs l = { r with ccs := some l })
    ∧ (∀ (r : SendSignatureRequest) (v : String),
      r.set_client_id v = { r with client_id := some v })
    ∧ (∀ (r : SendSignatureRequest) (l : List SubCustomField),
      r.set_custom_fields l = { r with custom_fields := some l })
    ∧ (∀ (r : SendSignatureRequest) (fs : List (List (Fin 256))),
      r.set_files fs = { r with files := some fs })
    ∧ (∀ (r : SendSignatureRequest) (l : List String),
      r.set_file_urls l = { r with file_urls := some l })
    ∧ (∀ (r : SendSignatureRequest) (b : Bool),
      r.set_is_eid b = { r with is_eid := some b })
    ∧ (∀ (r : SendSignatureRequest) (v : String),
      r.set_message v = { r with message := some v })
    ∧ (∀ (r : SendSignatureRequest) (m : List (String × String)),
      r.set_metadata m = { r with metadata := some m })
    ∧ (∀ (r : SendSignatureRequest) (o : SubSigningOptions),
      r.set_signing_options o = { r with signing_options := some o })
    ∧ (∀ (r : SendSignatureRequest) (v : String),
      r.set_signing_redirect_url v =
        { r with signing_redirect_url := some v })
    ∧ (∀ (r : SendSignatureRequest) (b : Bool),
      r.set_test_mode b = { r with test_mode := some b })
    ∧ (∀ (r : SendSignatureRequest) (v : String),
      r.set_title v = { r with title := some v }) :=
  ⟨fun _ _ => rfl, fun _ _ => rfl, fun _ _ => rfl, fun _ _ => rfl,
   fun _ _ => rfl, fun _ _ => rfl, fun _ _ => rfl, fun _ _ => rfl,
   fun _ _ => rfl, fun _ _ => rfl, fun _ _ => rfl, fun _ _ => rfl,
   fun _ _ => rfl, fun _ _ => rfl⟩

end DropboxSign

